import Mathlib

set_option maxHeartbeats 1000000

/-!
Shallow embedding of the Syropod high-level controller's `StateController`
(src/src/stateController.cpp together with its header
src/include/simple_hexapod_controller/stateController.h).

Doubles are embedded as rationals; ROS message inputs are embedded as the
enumeration values they are cast to in the callbacks.  The collaborating
controllers (WalkController, PoseController, ImpedanceController, Model,
DynamixelMotorInterface) are not part of the source tree; their observable
interface is embedded as an oracle record `Env` whose members are documented
as modelled from the spec.  `ros::shutdown()` is embedded as setting the
`shutdown_called` flag (the C++ call is asynchronous: execution continues to
the end of the member function, which the embedding mirrors).
-/

inductive SystemState
  | WAITING_FOR_USER
  | UNKNOWN
  | OFF
  | PACKED
  | READY
  | RUNNING
  | SUSPENDED
deriving DecidableEq

inductive WalkState
  | STARTING
  | MOVING
  | STOPPING
  | STOPPED
deriving DecidableEq

inductive LegState
  | WALKING
  | WALKING_TO_MANUAL
  | MANUAL
  | MANUAL_TO_WALKING
deriving DecidableEq

inductive GaitDesignation
  | TRIPOD_GAIT
  | RIPPLE_GAIT
  | WAVE_GAIT
  | AMBLE_GAIT
  | GAIT_UNDESIGNATED
deriving DecidableEq

inductive PosingMode
  | NO_POSING
  | X_Y_POSING
  | PITCH_ROLL_POSING
  | Z_YAW_POSING
deriving DecidableEq

inductive CruiseControlMode
  | CRUISE_CONTROL_ON
  | CRUISE_CONTROL_OFF
deriving DecidableEq

inductive AutoNavigationMode
  | AUTO_NAVIGATION_ON
  | AUTO_NAVIGATION_OFF
deriving DecidableEq

inductive PoseResetMode
  | NO_RESET
  | Z_AND_YAW_RESET
  | X_AND_Y_RESET
  | PITCH_AND_ROLL_RESET
  | ALL_RESET
  | IMMEDIATE_ALL_RESET
deriving DecidableEq

inductive ParameterSelection
  | NO_PARAMETER_SELECTION
  | STEP_FREQUENCY
  | STEP_CLEARANCE
  | BODY_CLEARANCE
  | LEG_SPAN_SCALE
  | VIRTUAL_MASS
  | VIRTUAL_STIFFNESS
  | VIRTUAL_DAMPING
  | FORCE_GAIN
deriving DecidableEq

structure Vec2 where
  x : ℚ
  y : ℚ
deriving DecidableEq

structure Vec3 where
  x : ℚ
  y : ℚ
  z : ℚ
deriving DecidableEq

/-- Joint state, embedding the fields of the `Joint` objects that
`StateController` reads or writes (model.h is outside the source tree; the
field list follows the spec's data model for `Joint`). -/
structure Joint where
  current_position : ℚ
  packed_position : ℚ
  position_offset : ℚ := 0
  current_velocity : ℚ := 0
  current_effort : ℚ := 0
  desired_position : ℚ := 0
  prev_desired_position : ℚ := 0
  desired_velocity : ℚ := 0
deriving DecidableEq

/-- Leg state, embedding the per-leg fields `StateController` reads or writes:
`leg_state`, the joint container, the leg poser's current tip position
(`leg->getLegPoser()->getCurrentTipPosition()`), `delta_z`, the desired tip
position handed to IK, tip force and virtual stiffness. -/
structure Leg where
  leg_state : LegState
  joints : List Joint
  poser_tip : Vec3
  delta_z : ℚ
  desired_tip_position : Vec3
  tip_force : ℚ := 0
  virtual_stiffness : ℚ := 0
deriving DecidableEq

/-- Adjustable parameter record: `{name, current_value, default_value, min,
max, adjust_step}` as in the spec's data model and the `AdjustableParameter`
uses in stateController.cpp. -/
structure AdjustableParameter where
  name : String
  current_value : ℚ
  default_value : ℚ
  min_value : ℚ
  max_value : ℚ
  adjust_step : ℚ
deriving DecidableEq

/-- The parameter fields of `Parameters` that stateController.cpp reads or
writes.  The eight runtime-adjustable parameters are `AdjustableParameter`
records (they are exactly the ones inserted into `params_.map` in
`initParameters`, lines 1239-1246); `max_linear_acceleration` and
`max_angular_acceleration` are plain values (their `.data` member), and are
not in that map. -/
structure Params where
  start_up_sequence : Bool
  impedance_control : Bool
  dynamic_stiffness : Bool
  use_joint_effort : Bool := false
  force_cruise_velocity : Bool := false
  debug_IK : Bool := false
  time_delta : ℚ := mkRat 1 100
  gait_type : String
  stance_phase : ℚ := 0
  swing_phase : ℚ := 0
  phase_offset : ℚ := 0
  offset_multiplier : List ℚ := []
  max_linear_acceleration : ℚ
  max_angular_acceleration : ℚ
  linear_cruise_velocity : Vec2 := ⟨0, 0⟩
  angular_cruise_velocity : ℚ := 0
  step_frequency : AdjustableParameter
  step_clearance : AdjustableParameter
  body_clearance : AdjustableParameter
  leg_span_scale : AdjustableParameter
  virtual_mass : AdjustableParameter
  virtual_stiffness : AdjustableParameter
  virtual_damping : AdjustableParameter
  force_gain : AdjustableParameter
deriving DecidableEq

/-- The adjustable-parameter map `params_.map` (initParameters lines
1239-1246) as a lookup from the selection enum to the parameter record.  The
`NO_PARAMETER_SELECTION` key is never inserted in the source (looking it up
there would dereference a null pointer); the embedding totalises it to
`step_frequency`, a case no claim exercises. -/
def Params.getAdjustable (p : Params) : ParameterSelection → AdjustableParameter
  | ParameterSelection.NO_PARAMETER_SELECTION => p.step_frequency
  | ParameterSelection.STEP_FREQUENCY => p.step_frequency
  | ParameterSelection.STEP_CLEARANCE => p.step_clearance
  | ParameterSelection.BODY_CLEARANCE => p.body_clearance
  | ParameterSelection.LEG_SPAN_SCALE => p.leg_span_scale
  | ParameterSelection.VIRTUAL_MASS => p.virtual_mass
  | ParameterSelection.VIRTUAL_STIFFNESS => p.virtual_stiffness
  | ParameterSelection.VIRTUAL_DAMPING => p.virtual_damping
  | ParameterSelection.FORCE_GAIN => p.force_gain

/-- Write-through of the adjustable-parameter map: assigning through the
pointer `parameter_being_adjusted_` updates the underlying parameter field. -/
def Params.setAdjustable (p : Params) : ParameterSelection → AdjustableParameter → Params
  | ParameterSelection.NO_PARAMETER_SELECTION, v => { p with step_frequency := v }
  | ParameterSelection.STEP_FREQUENCY, v => { p with step_frequency := v }
  | ParameterSelection.STEP_CLEARANCE, v => { p with step_clearance := v }
  | ParameterSelection.BODY_CLEARANCE, v => { p with body_clearance := v }
  | ParameterSelection.LEG_SPAN_SCALE, v => { p with leg_span_scale := v }
  | ParameterSelection.VIRTUAL_MASS, v => { p with virtual_mass := v }
  | ParameterSelection.VIRTUAL_STIFFNESS, v => { p with virtual_stiffness := v }
  | ParameterSelection.VIRTUAL_DAMPING, v => { p with virtual_damping := v }
  | ParameterSelection.FORCE_GAIN, v => { p with force_gain := v }

/-- Gait phase parameters loaded by `initGaitParameters` from the parameter
server for a given gait type. -/
structure GaitParams where
  stance_phase : ℚ
  swing_phase : ℚ
  phase_offset : ℚ
  offset_multiplier : List ℚ
deriving DecidableEq

/-- Modelled from the spec: the observable behaviour of the collaborating
controllers that are not part of the source tree (WalkController,
PoseController, ImpedanceController, Model's `applyIK`), plus the parameter
server.  Each choreography member is the per-tick return value the spec
describes ("each returns progress in [0,1]" or a completion flag); each
update member is the transformation the corresponding call applies to the
legs, left abstract because its code is absent. -/
structure Env where
  directStartup : ℚ
  unpackLegs : Bool
  packLegs : Bool
  startUpSequence : Bool
  shutDownSequence : Bool
  stepToNewStance : ℚ
  poseForLegManipulation : ℚ
  updateWalk : Vec2 → ℚ → WalkState → List Leg → WalkState × List Leg
  updateManual : Option Nat → Vec3 → Option Nat → Vec3 → List Leg → List Leg
  updateStance : List Leg → List Leg
  updateImpedance : Leg → Bool → ℚ
  updateStiffnessAll : List Leg → List Leg
  manipStiffness : Leg → ℚ → ℚ
  applyIK : Leg → List Joint
  gaitTable : String → GaitParams
  gait_type_param : String

/-- Observable events of one tick, used to state ordering properties:
which stage of the per-tick processing ran, and in which order. -/
inductive Event
  | updatePose
  | impedanceUpdate
  | walkUpdate
  | manualUpdate
  | stanceUpdate
  | ikUpdate
  | impedanceInit
  | walkerInit
  | transitionStep
deriving DecidableEq

/-- The `StateController` member state that stateController.cpp reads or
writes, with the header's initialisers as defaults where the claims need a
baseline. -/
structure SC where
  system_state : SystemState
  new_system_state : SystemState
  transition_state_flag : Bool
  gait_change_flag : Bool
  parameter_adjust_flag : Bool
  new_parameter_set : Bool
  toggle_primary_leg_state : Bool
  toggle_secondary_leg_state : Bool
  user_input_flag : Bool := false
  primary_leg_state : LegState
  secondary_leg_state : LegState
  primary_leg_selection : Option Nat
  secondary_leg_selection : Option Nat
  parameter_selection : ParameterSelection
  parameter_being_adjusted : ParameterSelection
  gait_selection : GaitDesignation
  posing_mode : PosingMode := PosingMode.NO_POSING
  cruise_control_mode : CruiseControlMode
  auto_navigation_mode : AutoNavigationMode := AutoNavigationMode.AUTO_NAVIGATION_OFF
  manual_leg_count : Int
  linear_velocity_input : Vec2
  angular_velocity_input : ℚ
  primary_tip_velocity_input : Vec3 := ⟨0, 0, 0⟩
  secondary_tip_velocity_input : Vec3 := ⟨0, 0, 0⟩
  linear_cruise_velocity : Vec2 := ⟨0, 0⟩
  angular_cruise_velocity : ℚ := 0
  legs : List Leg
  walk_state : WalkState
  pose_reset_mode : PoseResetMode := PoseResetMode.NO_RESET
  params : Params
  shutdown_called : Bool := false
deriving DecidableEq

/-- MAX_MANUAL_LEGS from stateController.h line 44. -/
def MAX_MANUAL_LEGS : Int := 2

/-- Exact rational addition, written through `mkRat` so that it evaluates
under kernel reduction (the library's `Rat.add` is irreducible); it stands
for the source's double addition. -/
def qadd (a b : ℚ) : ℚ := mkRat (a.num * b.den + b.num * a.den) (a.den * b.den)

/-- Exact rational subtraction (see `qadd`). -/
def qsub (a b : ℚ) : ℚ := qadd a (-b)

/-- Exact rational multiplication (see `qadd`). -/
def qmul (a b : ℚ) : ℚ := mkRat (a.num * b.num) (a.den * b.den)

/-- Minimum of two rationals, by comparison. -/
def qmin (a b : ℚ) : ℚ := if a ≤ b then a else b

/-- Maximum of two rationals, by comparison. -/
def qmax (a b : ℚ) : ℚ := if a ≤ b then b else a

/-- Absolute value on the rational embedding of doubles. -/
def ratAbs (q : ℚ) : ℚ := if q < 0 then -q else q

/-- C++ `int(...)` truncation toward zero of a rational. -/
def cppTrunc (q : ℚ) : ℤ := if 0 ≤ q then Rat.floor q else -(Rat.floor (-q))

/-- One joint's contribution to `check_packed` in `transitionSystemState`
(line 182): whether the joint is within 0.01 rad of its packed position. -/
def Joint.nearPacked (j : Joint) : Bool :=
  decide (ratAbs (qsub j.current_position j.packed_position) < mkRat 1 100)

/-- The `check_packed` accumulator of `transitionSystemState` lines 173-184:
the number of joints (over all legs) within tolerance of packed position. -/
def checkPackedCount (legs : List Leg) : Nat :=
  (legs.map (fun leg => (leg.joints.filter Joint.nearPacked).length)).sum

/-- Modelled from the spec: `Model::getLegCount()` (model.h is absent from
the source tree).  The spec's data model says Model owns a mapping
`leg_id → Leg` with keys `0..N-1`, so the leg count is the number of legs. -/
def getLegCount (legs : List Leg) : Nat := legs.length

/-- The dispatch chain of StateController::transitionSystemState
(stateController.cpp lines 168-298), embedded branch for branch. -/
def transitionDispatch (env : Env) (s : SC) : SC :=
    if s.system_state = SystemState.UNKNOWN then
      if checkPackedCount s.legs = getLegCount s.legs then
        if s.params.start_up_sequence = false then
          { s with shutdown_called := true }
        else
          { s with system_state := SystemState.PACKED }
      else if s.params.start_up_sequence = false then
        { s with system_state := SystemState.OFF }
      else
        { s with system_state := SystemState.PACKED }
    else if s.system_state = SystemState.OFF ∧ s.new_system_state ≠ SystemState.OFF then
      if s.new_system_state = SystemState.RUNNING ∧ s.params.start_up_sequence = false then
        if cppTrunc (qmul env.directStartup 100) = 100 then
          { s with system_state := SystemState.RUNNING }
        else s
      else
        { s with system_state := SystemState.PACKED }
    else if s.system_state = SystemState.PACKED ∧ s.new_system_state = SystemState.OFF then
      { s with system_state := SystemState.OFF }
    else if s.system_state = SystemState.PACKED ∧
        (s.new_system_state = SystemState.READY ∨ s.new_system_state = SystemState.RUNNING) then
      if env.unpackLegs then { s with system_state := SystemState.READY } else s
    else if s.system_state = SystemState.READY ∧
        (s.new_system_state = SystemState.PACKED ∨ s.new_system_state = SystemState.OFF) then
      if env.packLegs then { s with system_state := SystemState.PACKED } else s
    else if s.system_state = SystemState.READY ∧ s.new_system_state = SystemState.RUNNING then
      if env.startUpSequence then { s with system_state := SystemState.RUNNING } else s
    else if s.system_state = SystemState.RUNNING ∧ s.new_system_state ≠ SystemState.RUNNING then
      if s.new_system_state = SystemState.OFF ∧ s.params.start_up_sequence = false then
        { s with system_state := SystemState.OFF }
      else
        if env.shutDownSequence then { s with system_state := SystemState.READY } else s
    else
      { s with shutdown_called := true }

/-- StateController::transitionSystemState: the dispatch chain followed by
the trailing transition-complete check of lines 300-304. -/
def transitionSystemState (env : Env) (s : SC) : SC :=
  let s1 := transitionDispatch env s
  if s1.system_state = s1.new_system_state then
    { s1 with transition_state_flag := false }
  else s1

/-- StateController::impedanceControl (lines 147-163): update stiffness when
the walker is not stopped, then run the impedance calculation (updating
`delta_z`) for every leg whose state is WALKING. -/
def impedanceControl (env : Env) (s : SC) : SC :=
  let legs0 := if s.walk_state ≠ WalkState.STOPPED then env.updateStiffnessAll s.legs else s.legs
  let legs1 := legs0.map (fun leg =>
    if leg.leg_state = LegState.WALKING then
      { leg with delta_z := env.updateImpedance leg s.params.use_joint_effort }
    else leg)
  { s with legs := legs1 }

/-- StateController::initGaitParameters (lines 1254-1280): select the gait
type string (reading it from the parameter server when undesignated), then
load the gait phase parameters for that gait type. -/
def initGaitParameters (env : Env) (sel : GaitDesignation) (p : Params) : Params :=
  let p1 :=
    match sel with
    | GaitDesignation.TRIPOD_GAIT => { p with gait_type := "tripod_gait" }
    | GaitDesignation.RIPPLE_GAIT => { p with gait_type := "ripple_gait" }
    | GaitDesignation.WAVE_GAIT => { p with gait_type := "wave_gait" }
    | GaitDesignation.AMBLE_GAIT => { p with gait_type := "amble_gait" }
    | GaitDesignation.GAIT_UNDESIGNATED => { p with gait_type := env.gait_type_param }
  let g := env.gaitTable p1.gait_type
  { p1 with stance_phase := g.stance_phase, swing_phase := g.swing_phase,
            phase_offset := g.phase_offset, offset_multiplier := g.offset_multiplier }

/-- StateController::changeGait (lines 405-423).  When the walker is stopped:
load the new gait parameters, hand them to the walker (an effect on the
absent WalkController only), set both acceleration limits to the sentinel -1
and clear the flag.  Otherwise zero the velocity inputs to force a stop. -/
def changeGait (env : Env) (s : SC) : SC :=
  if s.walk_state = WalkState.STOPPED then
    let p1 := initGaitParameters env s.gait_selection s.params
    let p2 := { p1 with max_linear_acceleration := -1, max_angular_acceleration := -1 }
    { s with params := p2, gait_change_flag := false }
  else
    { s with linear_velocity_input := ⟨0, 0⟩, angular_velocity_input := 0 }

/-- Modelled from the spec: `clamped(value, min, max)` from the absent
standardIncludes.h clamps a value into `[min, max]`. -/
def clamped (v lo hi : ℚ) : ℚ := qmin (qmax v lo) hi

/-- StateController::adjustParameter (lines 366-400), with the events it
raises.  When stopped and the new value not yet set: clamp
`current_value + adjust_step` into bounds, re-initialise the impedance
controller (`impedance_->init()`; the `walker_->init()` call is commented
out in the source and therefore never raised here), and mark the new value
set.  When stopped and already set: complete when `stepToNewStance()`
returns exactly 1.0, clearing both flags.  Otherwise zero the velocity
inputs. -/
def adjustParameter (env : Env) (s : SC) : SC × List Event :=
  if s.walk_state = WalkState.STOPPED then
    if s.new_parameter_set = false then
      let p := Params.getAdjustable s.params s.parameter_being_adjusted
      let p1 := { p with
        current_value := clamped (qadd p.current_value p.adjust_step) p.min_value p.max_value }
      ({ s with params := Params.setAdjustable s.params s.parameter_being_adjusted p1,
                new_parameter_set := true }, [Event.impedanceInit])
    else
      if env.stepToNewStance = 1 then
        ({ s with parameter_adjust_flag := false, new_parameter_set := false }, [])
      else (s, [])
  else
    ({ s with linear_velocity_input := ⟨0, 0⟩, angular_velocity_input := 0 }, [])

/-- StateController::legStateToggle (lines 428-516).  The transitioning leg
is the primary selection when the primary toggle is pending, else the
secondary selection; an undesignated or out-of-range selection dereferences
an invalid leg in the source (the callbacks guard against requesting that),
embedded as leaving the state unchanged.  The
`poser_->calculateDefaultPose()` call at line 445 only affects the absent
PoseController. -/
def legStateToggle (env : Env) (s : SC) : SC :=
  if s.walk_state = WalkState.STOPPED then
    let sel := if s.toggle_primary_leg_state then s.primary_leg_selection
               else s.secondary_leg_selection
    match sel with
    | none => s
    | some i =>
      match s.legs.get? i with
      | none => s
      | some leg =>
        match leg.leg_state with
        | LegState.WALKING =>
          if s.manual_leg_count < MAX_MANUAL_LEGS then
            { s with legs := s.legs.set i { leg with leg_state := LegState.WALKING_TO_MANUAL } }
          else
            { s with toggle_primary_leg_state := false, toggle_secondary_leg_state := false }
        | LegState.MANUAL =>
          { s with legs := s.legs.set i { leg with leg_state := LegState.MANUAL_TO_WALKING } }
        | LegState.WALKING_TO_MANUAL =>
          let res := env.poseForLegManipulation
          let leg1 := if s.params.dynamic_stiffness then
              { leg with virtual_stiffness := env.manipStiffness leg res } else leg
          let s1 := { s with pose_reset_mode := PoseResetMode.IMMEDIATE_ALL_RESET,
                             legs := s.legs.set i leg1 }
          if res = 1 then
            { s1 with legs := s1.legs.set i { leg1 with leg_state := LegState.MANUAL },
                      toggle_primary_leg_state := false, toggle_secondary_leg_state := false,
                      pose_reset_mode := PoseResetMode.NO_RESET,
                      manual_leg_count := s1.manual_leg_count + 1 }
          else s1
        | LegState.MANUAL_TO_WALKING =>
          let res := env.poseForLegManipulation
          let leg1 := if s.params.dynamic_stiffness then
              { leg with virtual_stiffness := env.manipStiffness leg res } else leg
          let s1 := { s with pose_reset_mode := PoseResetMode.IMMEDIATE_ALL_RESET,
                             legs := s.legs.set i leg1 }
          if res = 1 then
            { s1 with legs := s1.legs.set i { leg1 with leg_state := LegState.WALKING },
                      toggle_primary_leg_state := false, toggle_secondary_leg_state := false,
                      pose_reset_mode := PoseResetMode.NO_RESET,
                      manual_leg_count := s1.manual_leg_count - 1 }
          else s1
  else
    { s with linear_velocity_input := ⟨0, 0⟩, angular_velocity_input := 0 }

/-- The per-leg body of the IK loop in runningState (lines 348-359): take the
leg poser's current tip position, subtract `delta_z` from its z component
unless the leg is MANUAL, store it as the desired tip position, and apply
inverse kinematics. -/
def ikStage (env : Env) (leg : Leg) : Leg :=
  let t0 := leg.poser_tip
  let t1 := if leg.leg_state ≠ LegState.MANUAL then { t0 with z := qsub t0.z leg.delta_z } else t0
  let leg1 := { leg with desired_tip_position := t1 }
  { leg1 with joints := env.applyIK leg1 }

/-- The priority-ordered action branch at the top of runningState (lines
313-332): gait change, else parameter adjust, else leg-state toggle, else
cruise-control substitution. -/
def actionPhase (env : Env) (s : SC) : SC × List Event :=
  if s.gait_change_flag then (changeGait env s, [])
  else if s.parameter_adjust_flag then adjustParameter env s
  else if s.toggle_primary_leg_state ∨ s.toggle_secondary_leg_state then (legStateToggle env s, [])
  else if s.cruise_control_mode = CruiseControlMode.CRUISE_CONTROL_ON then
    ({ s with linear_velocity_input := s.linear_cruise_velocity,
              angular_velocity_input := s.angular_cruise_velocity }, [])
  else (s, [])

/-- The flag disjunction of the pipeline guard in runningState line 336. -/
def pipelinePending (s : SC) : Bool :=
  s.gait_change_flag || s.parameter_adjust_flag ||
    s.toggle_primary_leg_state || s.toggle_secondary_leg_state

/-- StateController::runningState (lines 310-361): the action branch, then —
unless an action is (still) pending and the walker is stopped — the
four-stage tip update: updateWalk, updateManual, updateStance, and the
per-leg IK loop. -/
def runningState (env : Env) (s : SC) : SC × List Event :=
  let r := actionPhase env s
  let s1 := r.1
  if pipelinePending s1 = true ∧ s1.walk_state = WalkState.STOPPED then
    (s1, r.2)
  else
    let w := env.updateWalk s1.linear_velocity_input s1.angular_velocity_input s1.walk_state s1.legs
    let legs2 := env.updateManual s1.primary_leg_selection s1.primary_tip_velocity_input
        s1.secondary_leg_selection s1.secondary_tip_velocity_input w.2
    let legs3 := env.updateStance legs2
    let legs4 := legs3.map (ikStage env)
    ({ s1 with walk_state := w.1, legs := legs4 },
     r.2 ++ [Event.walkUpdate, Event.manualUpdate, Event.stanceUpdate, Event.ikUpdate])

/-- The first half of StateController::loop (lines 119-131): if the state is
known, update the current pose (an effect on the absent PoseController,
recorded as an event) and, when impedance control is enabled, run the
impedance stage. -/
def poseStage (env : Env) (s : SC) : SC × List Event :=
  if s.system_state ≠ SystemState.UNKNOWN then
    if s.params.impedance_control then
      (impedanceControl env s, [Event.updatePose, Event.impedanceUpdate])
    else (s, [Event.updatePose])
  else (s, ([] : List Event))

/-- The state-machine dispatch at the bottom of loop (lines 133-141). -/
def loop (env : Env) (s : SC) : SC × List Event :=
  let r1 := poseStage env s
  let s1 := r1.1
  if s1.transition_state_flag then
    (transitionSystemState env s1, r1.2 ++ [Event.transitionStep])
  else if s1.system_state = SystemState.RUNNING then
    let r2 := runningState env s1
    (r2.1, r1.2 ++ r2.2)
  else (s1, r1.2)

/-- StateController::systemStateCallback (lines 747-775).  The input is the
`SystemState` the int8 message is cast to. -/
def systemStateCallback (input : SystemState) (s : SC) : SC :=
  let s1 :=
    if s.new_system_state = SystemState.WAITING_FOR_USER then
      { s with new_system_state := input }
    else if s.system_state = SystemState.WAITING_FOR_USER ∧ s.new_system_state ≠ input then
      { s with new_system_state := input, user_input_flag := true }
    else if s.system_state ≠ SystemState.WAITING_FOR_USER ∧ s.params.start_up_sequence = false then
      if input = SystemState.READY ∨ input = SystemState.PACKED then
        { s with new_system_state := SystemState.OFF }
      else { s with new_system_state := input }
    else s
  if s1.new_system_state ≠ s1.system_state ∧ s1.system_state ≠ SystemState.WAITING_FOR_USER then
    { s1 with transition_state_flag := true }
  else s1

/-- StateController::gaitSelectionCallback (lines 780-791). -/
def gaitSelectionCallback (input : GaitDesignation) (s : SC) : SC :=
  if s.system_state = SystemState.RUNNING then
    if input ≠ s.gait_selection ∧ input ≠ GaitDesignation.GAIT_UNDESIGNATED then
      { s with gait_selection := input, gait_change_flag := true }
    else s
  else s

/-- StateController::posingModeCallback (lines 796-825); the switch only
logs. -/
def posingModeCallback (input : PosingMode) (s : SC) : SC :=
  if s.system_state = SystemState.RUNNING then
    if input ≠ s.posing_mode then { s with posing_mode := input } else s
  else s

/-- StateController::cruiseControlCallback (lines 830-862). -/
def cruiseControlCallback (input : CruiseControlMode) (s : SC) : SC :=
  if s.system_state = SystemState.RUNNING then
    if input ≠ s.cruise_control_mode then
      let s1 := { s with cruise_control_mode := input }
      if input = CruiseControlMode.CRUISE_CONTROL_ON then
        if s.params.force_cruise_velocity then
          { s1 with linear_cruise_velocity := s.params.linear_cruise_velocity,
                    angular_cruise_velocity := s.params.angular_cruise_velocity }
        else
          { s1 with linear_cruise_velocity := s.linear_velocity_input,
                    angular_cruise_velocity := s.angular_velocity_input }
      else s1
    else s
  else s

/-- StateController::autoNavigationCallback (lines 867-880). -/
def autoNavigationCallback (input : AutoNavigationMode) (s : SC) : SC :=
  if s.system_state = SystemState.RUNNING then
    if input ≠ s.auto_navigation_mode then { s with auto_navigation_mode := input } else s
  else s

/-- StateController::parameterSelectionCallback (lines 885-904): update the
selection and, when a parameter is selected, point
`parameter_being_adjusted_` at it through the map. -/
def parameterSelectionCallback (input : ParameterSelection) (s : SC) : SC :=
  if s.system_state = SystemState.RUNNING then
    if input ≠ s.parameter_selection then
      let s1 := { s with parameter_selection := input }
      if input ≠ ParameterSelection.NO_PARAMETER_SELECTION then
        { s1 with parameter_being_adjusted := input }
      else s1
    else s
  else s

/-- Modelled from the spec: `sign` from the absent standardIncludes.h; the
spec says the adjustment message "sign flips adjust_step when it opposes
current sign". -/
def ratSign (q : ℚ) : ℚ := if q < 0 then -1 else if 0 < q then 1 else 0

/-- Exact rational division (see `qadd`); division by zero gives zero. -/
def qdiv (a b : ℚ) : ℚ :=
  mkRat (a.num * (b.den : ℤ) * (if b.num < 0 then -1 else 1)) (a.den * b.num.natAbs)

/-- StateController::parameterAdjustCallback (lines 909-923). -/
def parameterAdjustCallback (input : Int) (s : SC) : SC :=
  if s.system_state = SystemState.RUNNING then
    if input ≠ 0 ∧ s.parameter_adjust_flag = false ∧
        s.parameter_selection ≠ ParameterSelection.NO_PARAMETER_SELECTION then
      let p := Params.getAdjustable s.params s.parameter_being_adjusted
      let p1 := if ratSign p.adjust_step ≠ ratSign (input : ℚ) then
          { p with adjust_step := -p.adjust_step } else p
      { s with params := Params.setAdjustable s.params s.parameter_being_adjusted p1,
               parameter_adjust_flag := true }
    else s
  else s

/-- StateController::primaryLegSelectionCallback (lines 942-961); the leg
pointer update is subsumed by the stored selection. -/
def primaryLegSelectionCallback (input : Option Nat) (s : SC) : SC :=
  if s.system_state = SystemState.RUNNING then
    if s.primary_leg_selection ≠ input then
      { s with primary_leg_selection := input }
    else s
  else s

/-- StateController::secondaryLegSelectionCallback (lines 966-985). -/
def secondaryLegSelectionCallback (input : Option Nat) (s : SC) : SC :=
  if s.system_state = SystemState.RUNNING then
    if s.secondary_leg_selection ≠ input then
      { s with secondary_leg_selection := input }
    else s
  else s

/-- StateController::primaryLegStateCallback (lines 990-1015): accepted only
when a primary leg is selected and the secondary slot is not
mid-transition. -/
def primaryLegStateCallback (input : LegState) (s : SC) : SC :=
  if s.system_state = SystemState.RUNNING then
    if input ≠ s.primary_leg_state then
      if s.primary_leg_selection = none then s
      else if s.toggle_secondary_leg_state then s
      else { s with primary_leg_state := input, toggle_primary_leg_state := true }
    else s
  else s

/-- StateController::secondaryLegStateCallback (lines 1020-1045). -/
def secondaryLegStateCallback (input : LegState) (s : SC) : SC :=
  if s.system_state = SystemState.RUNNING then
    if input ≠ s.secondary_leg_state then
      if s.secondary_leg_selection = none then s
      else if s.toggle_primary_leg_state then s
      else { s with secondary_leg_state := input, toggle_secondary_leg_state := true }
    else s
  else s

/-- StateController::poseResetCallback (lines 928-937). -/
def poseResetCallback (input : PoseResetMode) (s : SC) : SC :=
  if s.system_state ≠ SystemState.WAITING_FOR_USER then
    if s.pose_reset_mode ≠ PoseResetMode.IMMEDIATE_ALL_RESET then
      { s with pose_reset_mode := input }
    else s
  else s

/-- StateController::bodyVelocityInputCallback (lines 709-713). -/
def bodyVelocityInputCallback (lin : Vec2) (ang : ℚ) (s : SC) : SC :=
  { s with linear_velocity_input := lin, angular_velocity_input := ang }

/-- StateController::primaryTipVelocityInputCallback (lines 718-721). -/
def primaryTipVelocityInputCallback (v : Vec3) (s : SC) : SC :=
  { s with primary_tip_velocity_input := v }

/-- StateController::secondaryTipVelocityInputCallback (lines 726-729). -/
def secondaryTipVelocityInputCallback (v : Vec3) (s : SC) : SC :=
  { s with secondary_tip_velocity_input := v }

/-- StateController::publishDesiredJointState (lines 521-547): for every
joint, compute the desired velocity from the desired-position difference
over `time_delta` and remember the desired position (the velocity clamp in
the source is commented out); the motor-interface publish itself is an
external effect. -/
def publishDesiredJointState (s : SC) : SC :=
  { s with legs := s.legs.map (fun leg =>
      { leg with joints := leg.joints.map (fun j =>
          { j with
            desired_velocity :=
              qdiv (qsub j.desired_position j.prev_desired_position) s.params.time_delta
            prev_desired_position := j.desired_position }) }) }

/-- One operation on the controller state: a tick of `loop` (with that
tick's oracle values), one of the input callbacks, or the joint-state
publish step.  The sensor callbacks (imuCallback, jointStatesCallback,
tipForceCallback, bodyPoseInputCallback) only write measured per-leg and
per-joint fields or PoseController inputs; they are grouped as one
operation carrying the leg update they perform.  The debug publishers only
read state and are omitted. -/
inductive Op
  | tick (env : Env)
  | cbSystemState (input : SystemState)
  | cbGaitSelection (input : GaitDesignation)
  | cbPosingMode (input : PosingMode)
  | cbCruiseControl (input : CruiseControlMode)
  | cbAutoNavigation (input : AutoNavigationMode)
  | cbParameterSelection (input : ParameterSelection)
  | cbParameterAdjust (input : Int)
  | cbPrimaryLegSelection (input : Option Nat)
  | cbSecondaryLegSelection (input : Option Nat)
  | cbPrimaryLegState (input : LegState)
  | cbSecondaryLegState (input : LegState)
  | cbPoseReset (input : PoseResetMode)
  | cbBodyVelocity (lin : Vec2) (ang : ℚ)
  | cbPrimaryTipVelocity (v : Vec3)
  | cbSecondaryTipVelocity (v : Vec3)
  | cbSensor (f : List Leg → List Leg)
  | publishJointState

/-- Apply one operation to the controller state. -/
def step (op : Op) (s : SC) : SC :=
  match op with
  | Op.tick env => (loop env s).1
  | Op.cbSystemState input => systemStateCallback input s
  | Op.cbGaitSelection input => gaitSelectionCallback input s
  | Op.cbPosingMode input => posingModeCallback input s
  | Op.cbCruiseControl input => cruiseControlCallback input s
  | Op.cbAutoNavigation input => autoNavigationCallback input s
  | Op.cbParameterSelection input => parameterSelectionCallback input s
  | Op.cbParameterAdjust input => parameterAdjustCallback input s
  | Op.cbPrimaryLegSelection input => primaryLegSelectionCallback input s
  | Op.cbSecondaryLegSelection input => secondaryLegSelectionCallback input s
  | Op.cbPrimaryLegState input => primaryLegStateCallback input s
  | Op.cbSecondaryLegState input => secondaryLegStateCallback input s
  | Op.cbPoseReset input => poseResetCallback input s
  | Op.cbBodyVelocity lin ang => bodyVelocityInputCallback lin ang s
  | Op.cbPrimaryTipVelocity v => primaryTipVelocityInputCallback v s
  | Op.cbSecondaryTipVelocity v => secondaryTipVelocityInputCallback v s
  | Op.cbSensor f => { s with legs := f s.legs }
  | Op.publishJointState => publishDesiredJointState s

/-- Apply a sequence of operations in order. -/
def run (ops : List Op) (s : SC) : SC := ops.foldl (fun st op => step op st) s

/-- Oracle fixture: choreographies report no progress and the leg-updating
calls of the absent controllers act as the identity. -/
def env0 : Env where
  directStartup := 0
  unpackLegs := false
  packLegs := false
  startUpSequence := false
  shutDownSequence := false
  stepToNewStance := 0
  poseForLegManipulation := 0
  updateWalk := fun _ _ w legs => (w, legs)
  updateManual := fun _ _ _ _ legs => legs
  updateStance := fun legs => legs
  updateImpedance := fun leg _ => leg.delta_z
  updateStiffnessAll := fun legs => legs
  manipStiffness := fun leg _ => leg.virtual_stiffness
  applyIK := fun leg => leg.joints
  gaitTable := fun _ => { stance_phase := 0, swing_phase := 0, phase_offset := 0,
                          offset_multiplier := [] }
  gait_type_param := "tripod_gait"

/-- Oracle fixture for a tick in which `poseForLegManipulation` completes. -/
def envPose1 : Env := { env0 with poseForLegManipulation := 1 }

/-- Parameter fixture with representative adjustable parameters. -/
def params0 : Params where
  start_up_sequence := true
  impedance_control := false
  dynamic_stiffness := false
  gait_type := "tripod_gait"
  max_linear_acceleration := 1
  max_angular_acceleration := 1
  step_frequency := { name := "step_frequency", current_value := 1, default_value := 1,
                      min_value := mkRat 1 2, max_value := 3, adjust_step := mkRat 1 10 }
  step_clearance := { name := "step_clearance", current_value := mkRat 1 10, default_value := mkRat 1 10,
                      min_value := mkRat 1 100, max_value := 1, adjust_step := mkRat 1 100 }
  body_clearance := { name := "body_clearance", current_value := mkRat 1 4, default_value := mkRat 1 4,
                      min_value := mkRat 1 10, max_value := 1, adjust_step := mkRat 1 100 }
  leg_span_scale := { name := "leg_span_scale", current_value := 1, default_value := 1,
                      min_value := mkRat 1 2, max_value := 2, adjust_step := mkRat 1 10 }
  virtual_mass := { name := "virtual_mass", current_value := 10, default_value := 10,
                    min_value := 1, max_value := 100, adjust_step := 1 }
  virtual_stiffness := { name := "virtual_stiffness", current_value := 10, default_value := 10,
                         min_value := 1, max_value := 100, adjust_step := 1 }
  virtual_damping := { name := "virtual_damping", current_value := mkRat 1 2, default_value := mkRat 1 2,
                       min_value := mkRat 1 10, max_value := 1, adjust_step := mkRat 1 10 }
  force_gain := { name := "force_gain", current_value := 1, default_value := 1,
                  min_value := 0, max_value := 10, adjust_step := 1 }

/-- A 3-DOF leg whose joints sit exactly at their packed positions. -/
def walkLeg : Leg where
  leg_state := LegState.WALKING
  joints := [{ current_position := 0, packed_position := 0 },
             { current_position := 0, packed_position := 0 },
             { current_position := 0, packed_position := 0 }]
  poser_tip := ⟨0, 0, 0⟩
  delta_z := 0
  desired_tip_position := ⟨0, 0, 0⟩

/-- Six walking legs, the hexapod configuration. -/
def legs6 : List Leg := [walkLeg, walkLeg, walkLeg, walkLeg, walkLeg, walkLeg]

/-- State fixture: a RUNNING controller at rest with no pending requests. -/
def baseSC : SC where
  system_state := SystemState.RUNNING
  new_system_state := SystemState.RUNNING
  transition_state_flag := false
  gait_change_flag := false
  parameter_adjust_flag := false
  new_parameter_set := false
  toggle_primary_leg_state := false
  toggle_secondary_leg_state := false
  primary_leg_state := LegState.WALKING
  secondary_leg_state := LegState.WALKING
  primary_leg_selection := none
  secondary_leg_selection := none
  parameter_selection := ParameterSelection.NO_PARAMETER_SELECTION
  parameter_being_adjusted := ParameterSelection.STEP_FREQUENCY
  gait_selection := GaitDesignation.TRIPOD_GAIT
  cruise_control_mode := CruiseControlMode.CRUISE_CONTROL_OFF
  manual_leg_count := 0
  linear_velocity_input := ⟨0, 0⟩
  angular_velocity_input := 0
  legs := legs6
  walk_state := WalkState.STOPPED
  params := params0

/-- C1 failing input: UNKNOWN system state, six 3-DOF legs with every joint
exactly at its packed position, and `start_up_sequence = false`. -/
def sC1 : SC :=
  { baseSC with
    system_state := SystemState.UNKNOWN
    new_system_state := SystemState.OFF
    transition_state_flag := true
    params := { params0 with start_up_sequence := false } }

/-- C1: with every joint of every leg within 0.01 rad of its packed position
and `start_up_sequence = false`, the claim (and the source's own comment at
line 185, "All joints in each leg are approximately in the packed position")
requires the fatal packed branch; the code instead counts 18 in-tolerance
joints, compares that count against the leg count 6, takes the not-packed
branch and sets the system state to OFF without any shutdown. -/
theorem C1_packed_detection_bug :
    (sC1.legs.all (fun leg => leg.joints.all Joint.nearPacked)) = true ∧
    checkPackedCount sC1.legs = 18 ∧
    getLegCount sC1.legs = 6 ∧
    (transitionSystemState env0 sC1).system_state = SystemState.OFF ∧
    (transitionSystemState env0 sC1).shutdown_called = false := by
  decide

/-- Event a occurs in the trace strictly before event b does. -/
def occursBefore (a b : Event) (tr : List Event) : Prop :=
  a ∈ tr ∧ b ∈ tr ∧ tr.indexOf a < tr.indexOf b

instance (a b : Event) (tr : List Event) : Decidable (occursBefore a b tr) := by
  unfold occursBefore
  exact inferInstance

/-- The ordering C2 asserts for every tick: Walk before Pose (updateStance)
before Impedance (the delta_z update) before IK. -/
def pipelineOrderClaim (tr : List Event) : Prop :=
  occursBefore Event.walkUpdate Event.stanceUpdate tr ∧
  occursBefore Event.stanceUpdate Event.impedanceUpdate tr ∧
  occursBefore Event.impedanceUpdate Event.ikUpdate tr

instance (tr : List Event) : Decidable (pipelineOrderClaim tr) := by
  unfold pipelineOrderClaim
  exact inferInstance

/-- C2 counterexample input: a RUNNING tick with impedance control enabled,
no pending requests, and the walker moving. -/
def sC2 : SC :=
  { baseSC with
    params := { params0 with impedance_control := true }
    walk_state := WalkState.MOVING }

/-- C2: in a RUNNING tick with impedance enabled the trace is pose update,
impedance (delta_z) update, then Walk, Manual, Stance, IK — the delta_z
update precedes that tick's Walk and Pose stages, so the claimed
Walk-Pose-Impedance-IK order does not hold. -/
theorem C2_order_counterexample :
    (loop env0 sC2).2 = [Event.updatePose, Event.impedanceUpdate, Event.walkUpdate,
                         Event.manualUpdate, Event.stanceUpdate, Event.ikUpdate] ∧
    ¬ pipelineOrderClaim (loop env0 sC2).2 := by
  decide

/-- C2 amended: in every RUNNING tick with impedance control enabled and no
gait-change / parameter-adjust / leg-toggle request pending, the tick trace
is exactly pose update, impedance (delta_z) update, Walk, Manual, Stance,
IK: the delta_z value subtracted at the IK stage was computed at the start
of the tick, before that tick's Walk and Pose stages, and Walk precedes
Pose precedes IK. -/
theorem C2_amended_order (env : Env) (s : SC)
    (h1 : s.system_state = SystemState.RUNNING)
    (h2 : s.transition_state_flag = false)
    (h3 : s.params.impedance_control = true)
    (h4 : s.gait_change_flag = false)
    (h5 : s.parameter_adjust_flag = false)
    (h6 : s.toggle_primary_leg_state = false)
    (h7 : s.toggle_secondary_leg_state = false) :
    (loop env s).2 = [Event.updatePose, Event.impedanceUpdate, Event.walkUpdate,
                      Event.manualUpdate, Event.stanceUpdate, Event.ikUpdate] ∧
    occursBefore Event.impedanceUpdate Event.walkUpdate (loop env s).2 ∧
    occursBefore Event.walkUpdate Event.stanceUpdate (loop env s).2 ∧
    occursBefore Event.stanceUpdate Event.ikUpdate (loop env s).2 := by
  have htr : (loop env s).2 = [Event.updatePose, Event.impedanceUpdate, Event.walkUpdate,
      Event.manualUpdate, Event.stanceUpdate, Event.ikUpdate] := by
    cases hc : s.cruise_control_mode <;>
      simp [loop, poseStage, runningState, actionPhase, pipelinePending, impedanceControl,
            h1, h2, h3, h4, h5, h6, h7, hc]
  refine ⟨htr, ?_, ?_, ?_⟩ <;> rw [htr] <;> decide

/-- The action branch of runningState never emits a pipeline-stage event. -/
theorem actionPhase_no_walk_event (env : Env) (s : SC) :
    Event.walkUpdate ∉ (actionPhase env s).2 := by
  unfold actionPhase adjustParameter
  repeat' split
  all_goals simp

/-- C3 counterexample input: a parameter adjustment is pending while the
walker is still MOVING. -/
def sC3 : SC :=
  { baseSC with parameter_adjust_flag := true, walk_state := WalkState.MOVING }

/-- C3: with a parameter-adjust action pending and the walker not yet
stopped, the claim says the pipeline is skipped; the code runs it (the walk
stage event is in the trace), refuting the claimed equivalence. -/
theorem C3_skip_counterexample :
    ¬ ((Event.walkUpdate ∉ (runningState env0 sC3).2) ↔
       (pipelinePending sC3 = true ∧ sC3.walk_state ≠ WalkState.STOPPED)) := by
  decide

/-- C3 amended: the four-stage pipeline is skipped exactly when one of the
gait-change / parameter-adjust / leg-state-toggle requests is still pending
after its handler ran this tick AND the walker is STOPPED (handlers only
run those actions once the walker has stopped, and zero the velocity inputs
otherwise, so while stopping the pipeline keeps running). -/
theorem C3_amended_skip (env : Env) (s : SC) :
    Event.walkUpdate ∈ (runningState env s).2 ↔
      ¬ (pipelinePending (actionPhase env s).1 = true ∧
         (actionPhase env s).1.walk_state = WalkState.STOPPED) := by
  unfold runningState
  by_cases h : pipelinePending (actionPhase env s).1 = true ∧
      (actionPhase env s).1.walk_state = WalkState.STOPPED
  · simp [h, actionPhase_no_walk_event env s]
  · simp [h]

/-- C4 counterexample input: the system left WAITING_FOR_USER (it is
RUNNING), a transition target OFF is already stored, and
`start_up_sequence` is true. -/
def sC4 : SC := { baseSC with new_system_state := SystemState.OFF }

/-- C4: with `start_up_sequence = true` and `new_system_state` no longer
WAITING_FOR_USER, an incoming PACKED command is not accepted: the stored
target stays OFF, refuting "every incoming system_state command is
accepted as the new target". -/
theorem C4_not_accepted_counterexample :
    (systemStateCallback SystemState.PACKED sC4).new_system_state = SystemState.OFF ∧
    (systemStateCallback SystemState.PACKED sC4).new_system_state ≠ SystemState.PACKED := by
  decide

/-- C4 amended: after the system has left WAITING_FOR_USER, the stored
target becomes the input only when the stored target is still
WAITING_FOR_USER (stored verbatim, without the OFF rewrite) or when
`start_up_sequence` is false (then READY and PACKED are rewritten to OFF);
when `start_up_sequence` is true and a target is already stored, the
command is ignored. -/
theorem C4_amended_acceptance (s : SC) (input : SystemState)
    (h : s.system_state ≠ SystemState.WAITING_FOR_USER) :
    (systemStateCallback input s).new_system_state =
      (if s.new_system_state = SystemState.WAITING_FOR_USER then input
       else if s.params.start_up_sequence = false then
         (if input = SystemState.READY ∨ input = SystemState.PACKED then SystemState.OFF
          else input)
       else s.new_system_state) := by
  unfold systemStateCallback
  simp only [h, false_and, if_false, ne_eq, not_false_iff, true_and, and_true, if_true]
  repeat' split
  all_goals simp_all

/-- C4 fixture for the amended theorem's witness: RUNNING with
`start_up_sequence = false` and target RUNNING stored. -/
def sC4w : SC :=
  { baseSC with params := { params0 with start_up_sequence := false } }

/-- Witness for C4 amended: at the concrete fixture a READY command is
accepted and rewritten to OFF. -/
theorem C4_amended_acceptance_witness :
    sC4w.system_state ≠ SystemState.WAITING_FOR_USER ∧
    (systemStateCallback SystemState.READY sC4w).new_system_state = SystemState.OFF := by
  refine ⟨by decide, ?_⟩
  have h := C4_amended_acceptance sC4w SystemState.READY (by decide)
  exact h.trans (by decide)

/-- The desired tip position the IK stage must have produced for a leg:
the leg poser's current tip position, with `delta_z` subtracted from its z
component unless the leg is MANUAL. -/
def c5target (leg : Leg) : Vec3 :=
  if leg.leg_state ≠ LegState.MANUAL then
    { leg.poser_tip with z := qsub leg.poser_tip.z leg.delta_z }
  else leg.poser_tip

/-- Boolean check of the C5 property on one output leg. -/
def c5check (leg : Leg) : Bool := decide (leg.desired_tip_position = c5target leg)

/-- The IK stage establishes the C5 property on every leg it produces. -/
theorem ikStage_c5check (env : Env) (leg : Leg) : c5check (ikStage env leg) = true := by
  unfold c5check ikStage c5target
  by_cases h : leg.leg_state = LegState.MANUAL <;> simp [h]

/-- C5: whenever the RUNNING pipeline executes, every leg leaving the tick
satisfies: its desired tip position equals its (post-updateStance) leg
poser tip position with `delta_z` subtracted from z if its state is not
MANUAL, and equals the poser tip position unchanged if MANUAL. -/
theorem C5_ik_input (env : Env) (s : SC)
    (h : ¬ (pipelinePending (actionPhase env s).1 = true ∧
            (actionPhase env s).1.walk_state = WalkState.STOPPED)) :
    ((runningState env s).1.legs.all c5check) = true := by
  simp only [runningState]
  rw [if_neg h]
  simp only [List.all_eq_true]
  intro leg hleg
  rw [List.mem_map] at hleg
  obtain ⟨leg0, -, rfl⟩ := hleg
  exact ikStage_c5check env leg0

/-- A walking leg with a nonzero impedance offset and a posed tip. -/
def dzLeg : Leg := { walkLeg with delta_z := mkRat 1 5, poser_tip := ⟨1, 2, 3⟩ }

/-- A manually controlled leg with a nonzero impedance offset. -/
def manualLeg : Leg :=
  { walkLeg with leg_state := LegState.MANUAL, delta_z := mkRat 1 5, poser_tip := ⟨1, 2, 3⟩ }

/-- C5 witness fixture: a quiescent RUNNING state with one walking and one
manual leg. -/
def sC5 : SC := { baseSC with legs := [dzLeg, manualLeg] }

/-- Witness for C5 at a concrete input where the pipeline executes. -/
theorem C5_ik_input_witness :
    ¬ (pipelinePending (actionPhase env0 sC5).1 = true ∧
       (actionPhase env0 sC5).1.walk_state = WalkState.STOPPED) ∧
    ((runningState env0 sC5).1.legs.all c5check) = true :=
  ⟨by decide, C5_ik_input env0 sC5 (by decide)⟩

/-- Whether a leg is in a manual-associated state. -/
def manualAssoc (leg : Leg) : Bool :=
  decide (leg.leg_state = LegState.MANUAL ∨ leg.leg_state = LegState.WALKING_TO_MANUAL ∨
          leg.leg_state = LegState.MANUAL_TO_WALKING)

/-- Number of legs in a manual-associated state. -/
def countManualAssoc (legs : List Leg) : Nat := (legs.filter manualAssoc).length

/-- C6 failing input: starting from the quiescent RUNNING state, toggle leg
0 toward MANUAL, change the primary selection to leg 1 mid-transition (the
selection callback does not guard against this), let leg 1 finish its
transition, then select leg 2 and toggle it.  Each `tick` op carries that
tick's oracle values (`poseForLegManipulation` returns 0 until the
completion tick, where it returns 1). -/
def opsC6 : List Op :=
  [Op.cbPrimaryLegSelection (some 0),
   Op.cbPrimaryLegState LegState.MANUAL,
   Op.tick env0,
   Op.cbPrimaryLegSelection (some 1),
   Op.tick env0,
   Op.tick envPose1,
   Op.cbPrimaryLegSelection (some 2),
   Op.cbPrimaryLegState LegState.WALKING,
   Op.tick env0]

/-- C6: after the operation sequence, legs 0 and 2 are WALKING_TO_MANUAL
and leg 1 is MANUAL - three legs simultaneously in manual-associated
states, though `manual_leg_count` is only 1, violating the claimed
MAX_MANUAL_LEGS = 2 bound. -/
theorem C6_manual_bound_violated :
    countManualAssoc ((run opsC6 baseSC).legs) = 3 ∧
    (run opsC6 baseSC).manual_leg_count = 1 ∧
    MAX_MANUAL_LEGS = 2 := by
  decide

/-- After transitionSystemState, equal current and target states imply the
transition flag is cleared (the trailing check at lines 300-304). -/
theorem transitionSystemState_eq_clears_flag (env : Env) (s : SC) :
    (transitionSystemState env s).system_state = (transitionSystemState env s).new_system_state →
    (transitionSystemState env s).transition_state_flag = false := by
  simp only [transitionSystemState]
  split
  · intro _; rfl
  · intro h; exact absurd h (by assumption)

/-- changeGait does not touch the transition flag. -/
theorem changeGait_transition_flag (env : Env) (s : SC) :
    (changeGait env s).transition_state_flag = s.transition_state_flag := by
  unfold changeGait
  split <;> rfl

/-- adjustParameter does not touch the transition flag. -/
theorem adjustParameter_transition_flag (env : Env) (s : SC) :
    (adjustParameter env s).1.transition_state_flag = s.transition_state_flag := by
  simp only [adjustParameter]
  repeat' split
  all_goals rfl

/-- legStateToggle does not touch the transition flag. -/
theorem legStateToggle_transition_flag (env : Env) (s : SC) :
    (legStateToggle env s).transition_state_flag = s.transition_state_flag := by
  simp only [legStateToggle]
  repeat' split
  all_goals rfl

/-- The runningState action branch does not touch the transition flag. -/
theorem actionPhase_transition_flag (env : Env) (s : SC) :
    (actionPhase env s).1.transition_state_flag = s.transition_state_flag := by
  unfold actionPhase
  repeat' split
  · exact changeGait_transition_flag env s
  · exact adjustParameter_transition_flag env s
  · exact legStateToggle_transition_flag env s
  · rfl
  · rfl

/-- runningState does not touch the transition flag. -/
theorem runningState_transition_flag (env : Env) (s : SC) :
    (runningState env s).1.transition_state_flag = s.transition_state_flag := by
  simp only [runningState]
  split
  · exact actionPhase_transition_flag env s
  · exact actionPhase_transition_flag env s

/-- The pose/impedance stage does not touch the transition flag. -/
theorem poseStage_transition_flag (env : Env) (s : SC) :
    (poseStage env s).1.transition_state_flag = s.transition_state_flag := by
  unfold poseStage
  repeat' split
  all_goals rfl

/-- C7 counterexample input: RUNNING with a transition to OFF pending (flag
raised) and `start_up_sequence = false`. -/
def sC7 : SC :=
  { baseSC with
    new_system_state := SystemState.OFF
    transition_state_flag := true
    params := { params0 with start_up_sequence := false } }

/-- C7: a RUNNING command arriving while a RUNNING-to-OFF transition is
pending sets the target back to RUNNING but leaves the raised flag set:
after the callback the two states are equal and the flag is still true,
refuting the claimed invariant for callbacks. -/
theorem C7_callback_counterexample :
    (systemStateCallback SystemState.RUNNING sC7).system_state =
      (systemStateCallback SystemState.RUNNING sC7).new_system_state ∧
    (systemStateCallback SystemState.RUNNING sC7).transition_state_flag = true := by
  decide

/-- The callback only raises the flag when (after the update) the stored
target differs from the current state and the state is not
WAITING_FOR_USER; it never clears a raised flag. -/
theorem systemStateCallback_flag (input : SystemState) (s : SC) :
    ((systemStateCallback input s).transition_state_flag = true ↔
      (s.transition_state_flag = true ∨
       ((systemStateCallback input s).new_system_state ≠ s.system_state ∧
        s.system_state ≠ SystemState.WAITING_FOR_USER))) := by
  simp only [systemStateCallback]
  repeat' split
  all_goals simp_all

/-- C7 amended: after every tick, equal current and target system states
imply the transition flag is cleared (transitionSystemState clears it
whenever the two are equal on exit, and nothing else in the tick raises
it); the system-state callback raises the flag only when the stored states
differ, but it does not clear an already-raised flag, so the implication
can fail immediately after a callback that returns the target to the
current state while a transition was pending. -/
theorem C7_amended_flag_invariant (env : Env) (s : SC) (input : SystemState) :
    ((loop env s).1.system_state = (loop env s).1.new_system_state →
      (loop env s).1.transition_state_flag = false) ∧
    ((systemStateCallback input s).transition_state_flag = true ↔
      (s.transition_state_flag = true ∨
       ((systemStateCallback input s).new_system_state ≠ s.system_state ∧
        s.system_state ≠ SystemState.WAITING_FOR_USER))) := by
  refine ⟨?_, systemStateCallback_flag input s⟩
  simp only [loop]
  split
  · intro hh
    exact transitionSystemState_eq_clears_flag env _ hh
  · rename_i hflag
    split
    · intro _
      rw [runningState_transition_flag, poseStage_transition_flag]
      rw [poseStage_transition_flag] at hflag
      simpa using hflag
    · intro _
      rw [poseStage_transition_flag]
      rw [poseStage_transition_flag] at hflag
      simpa using hflag

/-- C7 witness fixture: a tick entered with the flag raised and the states
already equal. -/
def sC7w : SC := { baseSC with transition_state_flag := true }

/-- Witness for C7 amended at a concrete tick. -/
theorem C7_amended_flag_invariant_witness :
    (loop env0 sC7w).1.transition_state_flag = false :=
  (C7_amended_flag_invariant env0 sC7w SystemState.RUNNING).1 (by decide)

/-- A controller state whose current and target system states are both
`st`, with the transition flag raised. -/
def eqStateSC (st : SystemState) : SC :=
  { baseSC with system_state := st, new_system_state := st, transition_state_flag := true }

/-- C9 reachability fixture: RUNNING with a transition to OFF pending and
`start_up_sequence = false`. -/
def sC9 : SC :=
  { baseSC with
    new_system_state := SystemState.OFF
    transition_state_flag := true
    params := { params0 with start_up_sequence := false } }

/-- C9: for each of OFF, PACKED, READY and RUNNING, entering
transitionSystemState with current and target equal takes the undefined
transition branch and requests shutdown; and the callback can produce such
a state: from sC9 a RUNNING command makes the states equal with the flag
still raised, and the next transition step shuts down. -/
theorem C9_equal_state_fatal :
    (transitionSystemState env0 (eqStateSC SystemState.OFF)).shutdown_called = true ∧
    (transitionSystemState env0 (eqStateSC SystemState.PACKED)).shutdown_called = true ∧
    (transitionSystemState env0 (eqStateSC SystemState.READY)).shutdown_called = true ∧
    (transitionSystemState env0 (eqStateSC SystemState.RUNNING)).shutdown_called = true ∧
    ((systemStateCallback SystemState.RUNNING sC9).system_state =
       (systemStateCallback SystemState.RUNNING sC9).new_system_state ∧
     (systemStateCallback SystemState.RUNNING sC9).transition_state_flag = true ∧
     (transitionSystemState env0 (systemStateCallback SystemState.RUNNING sC9)).shutdown_called
       = true) := by
  decide

/-- The clamped value never exceeds the upper bound. -/
theorem clamped_le (v lo hi : ℚ) : clamped v lo hi ≤ hi := by
  unfold clamped qmin
  split
  · assumption
  · exact le_refl hi

/-- The lower bound never exceeds the clamped value, provided the bounds
are ordered. -/
theorem le_clamped (v lo hi : ℚ) (h : lo ≤ hi) : lo ≤ clamped v lo hi := by
  unfold clamped qmin qmax
  repeat' split
  · exact le_refl lo
  · exact le_of_not_le (by assumption)
  · exact h

/-- Reading back the parameter just written through the map. -/
theorem getAdjustable_setAdjustable (p : Params) (sel : ParameterSelection)
    (v : AdjustableParameter) :
    Params.getAdjustable (Params.setAdjustable p sel v) sel = v := by
  cases sel <;> rfl

/-- C8 failing/witness input: a pending STEP_FREQUENCY adjustment with the
walker stopped and the new value not yet applied. -/
def sC8 : SC :=
  { baseSC with
    parameter_adjust_flag := true
    parameter_selection := ParameterSelection.STEP_FREQUENCY }

/-- C8: adjusting STEP_FREQUENCY (a parameter that affects gait geometry)
with the walker stopped re-initialises the impedance controller only; no
walker re-initialisation ever happens (the `walker_->init()` call is
commented out in the source), refuting the claim's parenthetical. -/
theorem C8_no_walker_reinit_counterexample :
    sC8.parameter_being_adjusted = ParameterSelection.STEP_FREQUENCY ∧
    sC8.walk_state = WalkState.STOPPED ∧
    (adjustParameter env0 sC8).2 = [Event.impedanceInit] ∧
    Event.walkerInit ∉ (adjustParameter env0 sC8).2 := by
  decide

/-- C8 amended: with the walker STOPPED and the new value not yet set,
adjustParameter clamps `current_value + adjust_step` into `[min, max]`
(preserving the bounds), re-initialises the impedance controller only (no
walker re-init), marks the value set and keeps the adjust flag; with the
value already set it clears the flag exactly when `stepToNewStance`
returns 1.0; when not STOPPED it zeroes the velocity inputs and changes no
parameter. -/
theorem C8_amended_adjust (env : Env) (s : SC)
    (hb : (Params.getAdjustable s.params s.parameter_being_adjusted).min_value ≤
          (Params.getAdjustable s.params s.parameter_being_adjusted).max_value) :
    (s.walk_state = WalkState.STOPPED → s.new_parameter_set = false →
      ((Params.getAdjustable (adjustParameter env s).1.params
          s.parameter_being_adjusted).current_value
         = clamped (qadd (Params.getAdjustable s.params s.parameter_being_adjusted).current_value
                         (Params.getAdjustable s.params s.parameter_being_adjusted).adjust_step)
                   (Params.getAdjustable s.params s.parameter_being_adjusted).min_value
                   (Params.getAdjustable s.params s.parameter_being_adjusted).max_value ∧
       (Params.getAdjustable s.params s.parameter_being_adjusted).min_value ≤
         (Params.getAdjustable (adjustParameter env s).1.params
           s.parameter_being_adjusted).current_value ∧
       (Params.getAdjustable (adjustParameter env s).1.params
           s.parameter_being_adjusted).current_value ≤
         (Params.getAdjustable s.params s.parameter_being_adjusted).max_value ∧
       (adjustParameter env s).2 = [Event.impedanceInit] ∧
       Event.walkerInit ∉ (adjustParameter env s).2 ∧
       (adjustParameter env s).1.new_parameter_set = true ∧
       (adjustParameter env s).1.parameter_adjust_flag = s.parameter_adjust_flag)) ∧
    (s.walk_state = WalkState.STOPPED → s.new_parameter_set = true →
      s.parameter_adjust_flag = true →
      ((adjustParameter env s).1.parameter_adjust_flag = false ↔ env.stepToNewStance = 1)) ∧
    (s.walk_state ≠ WalkState.STOPPED →
      ((adjustParameter env s).1.linear_velocity_input = ⟨0, 0⟩ ∧
       (adjustParameter env s).1.angular_velocity_input = 0 ∧
       (adjustParameter env s).1.params = s.params ∧
       (adjustParameter env s).1.parameter_adjust_flag = s.parameter_adjust_flag)) := by
  refine ⟨?_, ?_, ?_⟩
  · intro h1 h2
    unfold adjustParameter
    rw [if_pos h1, if_pos h2]
    refine ⟨?_, ?_, ?_, rfl, by simp, rfl, rfl⟩
    · rw [getAdjustable_setAdjustable]
    · rw [getAdjustable_setAdjustable]
      exact le_clamped _ _ _ hb
    · rw [getAdjustable_setAdjustable]
      exact clamped_le _ _ _
  · intro h1 h2 h3
    unfold adjustParameter
    rw [if_pos h1, if_neg (by simp [h2])]
    split
    · rename_i hst
      simp [hst]
    · rename_i hst
      simp [h3, hst]
  · intro h1
    unfold adjustParameter
    rw [if_neg h1]
    exact ⟨rfl, rfl, rfl, rfl⟩

/-- Witness for C8 amended: the STEP_FREQUENCY value 1 with step 0.1 is
clamped into [0.5, 3] giving 1.1. -/
theorem C8_amended_adjust_witness :
    sC8.walk_state = WalkState.STOPPED ∧ sC8.new_parameter_set = false ∧
    (Params.getAdjustable (adjustParameter env0 sC8).1.params
       sC8.parameter_being_adjusted).current_value = mkRat 11 10 := by
  have h := (C8_amended_adjust env0 sC8 (by decide)).1 rfl rfl
  exact ⟨rfl, rfl, h.1.trans (by decide)⟩

/-- The acceleration-clamp sentinel state: both acceleration limits hold
the sentinel -1 set by changeGait (meaning clamping disabled). -/
def accSentinel (s : SC) : Prop :=
  s.params.max_linear_acceleration = -1 ∧ s.params.max_angular_acceleration = -1

/-- Writing any adjustable parameter through the map leaves both
acceleration limits unchanged. -/
theorem setAdjustable_acc (p : Params) (sel : ParameterSelection) (v : AdjustableParameter) :
    (Params.setAdjustable p sel v).max_linear_acceleration = p.max_linear_acceleration ∧
    (Params.setAdjustable p sel v).max_angular_acceleration = p.max_angular_acceleration := by
  cases sel <;> exact ⟨rfl, rfl⟩

/-- initGaitParameters leaves both acceleration limits unchanged. -/
theorem initGaitParameters_acc (env : Env) (sel : GaitDesignation) (p : Params) :
    (initGaitParameters env sel p).max_linear_acceleration = p.max_linear_acceleration ∧
    (initGaitParameters env sel p).max_angular_acceleration = p.max_angular_acceleration := by
  cases sel <;> exact ⟨rfl, rfl⟩

/-- A state with the same parameter block as a sentinel state is itself a
sentinel state. -/
theorem accSentinel_of_params_eq {s t : SC} (hp : t.params = s.params)
    (h : accSentinel s) : accSentinel t :=
  ⟨by rw [hp]; exact h.1, by rw [hp]; exact h.2⟩

/-- changeGait with the walker stopped establishes the sentinel. -/
theorem changeGait_stopped_acc (env : Env) (s : SC) (h : s.walk_state = WalkState.STOPPED) :
    accSentinel (changeGait env s) := by
  unfold changeGait
  rw [if_pos h]
  exact ⟨rfl, rfl⟩

/-- changeGait preserves the sentinel. -/
theorem changeGait_acc (env : Env) (s : SC) (h : accSentinel s) :
    accSentinel (changeGait env s) := by
  unfold changeGait
  split
  · exact ⟨rfl, rfl⟩
  · exact h

/-- adjustParameter leaves both acceleration limits unchanged. -/
theorem adjustParameter_acc (env : Env) (s : SC) :
    (adjustParameter env s).1.params.max_linear_acceleration
      = s.params.max_linear_acceleration ∧
    (adjustParameter env s).1.params.max_angular_acceleration
      = s.params.max_angular_acceleration := by
  simp only [adjustParameter]
  repeat' split
  all_goals first
  | exact setAdjustable_acc _ _ _
  | exact ⟨rfl, rfl⟩

/-- legStateToggle does not touch the parameter block. -/
theorem legStateToggle_params (env : Env) (s : SC) :
    (legStateToggle env s).params = s.params := by
  simp only [legStateToggle]
  repeat' split
  all_goals rfl

/-- The transition dispatch chain does not touch the parameter block. -/
theorem transitionDispatch_params (env : Env) (s : SC) :
    (transitionDispatch env s).params = s.params := by
  unfold transitionDispatch
  repeat' split
  all_goals rfl

/-- transitionSystemState does not touch the parameter block. -/
theorem transitionSystemState_params (env : Env) (s : SC) :
    (transitionSystemState env s).params = s.params := by
  simp only [transitionSystemState]
  split
  · exact transitionDispatch_params env s
  · exact transitionDispatch_params env s

/-- The pose/impedance stage does not touch the parameter block. -/
theorem poseStage_params (env : Env) (s : SC) :
    (poseStage env s).1.params = s.params := by
  unfold poseStage
  repeat' split
  all_goals rfl

/-- The runningState action branch preserves the sentinel. -/
theorem actionPhase_acc (env : Env) (s : SC) (h : accSentinel s) :
    accSentinel (actionPhase env s).1 := by
  simp only [actionPhase]
  repeat' split
  · exact changeGait_acc env s h
  · exact ⟨(adjustParameter_acc env s).1.trans h.1, (adjustParameter_acc env s).2.trans h.2⟩
  · exact accSentinel_of_params_eq (legStateToggle_params env s) h
  · exact h
  · exact h

/-- runningState preserves the sentinel. -/
theorem runningState_acc (env : Env) (s : SC) (h : accSentinel s) :
    accSentinel (runningState env s).1 := by
  simp only [runningState]
  split
  · exact actionPhase_acc env s h
  · exact actionPhase_acc env s h

/-- One tick of loop preserves the sentinel. -/
theorem loop_acc (env : Env) (s : SC) (h : accSentinel s) :
    accSentinel (loop env s).1 := by
  have hps : accSentinel (poseStage env s).1 :=
    accSentinel_of_params_eq (poseStage_params env s) h
  simp only [loop]
  split
  · exact accSentinel_of_params_eq (transitionSystemState_params env _) hps
  · split
    · exact runningState_acc env _ hps
    · exact hps

/-- systemStateCallback does not touch the parameter block. -/
theorem systemStateCallback_params (input : SystemState) (s : SC) :
    (systemStateCallback input s).params = s.params := by
  simp only [systemStateCallback]
  repeat' split
  all_goals rfl

/-- parameterAdjustCallback leaves both acceleration limits unchanged. -/
theorem parameterAdjustCallback_acc (input : Int) (s : SC) :
    (parameterAdjustCallback input s).params.max_linear_acceleration
      = s.params.max_linear_acceleration ∧
    (parameterAdjustCallback input s).params.max_angular_acceleration
      = s.params.max_angular_acceleration := by
  simp only [parameterAdjustCallback]
  repeat' split
  all_goals first
  | exact setAdjustable_acc _ _ _
  | exact ⟨rfl, rfl⟩

/-- Every operation of the controller preserves the sentinel: no callback
or tick assigns either acceleration limit any value other than -1 once it
is set (neither parameter is reachable through the adjustable-parameter
map). -/
theorem step_acc (op : Op) (s : SC) (h : accSentinel s) : accSentinel (step op s) := by
  cases op with
  | tick env => exact loop_acc env s h
  | cbSystemState input =>
    exact accSentinel_of_params_eq (systemStateCallback_params input s) h
  | cbGaitSelection input =>
    refine accSentinel_of_params_eq ?_ h
    simp only [step, gaitSelectionCallback]
    repeat' split
    all_goals rfl
  | cbPosingMode input =>
    refine accSentinel_of_params_eq ?_ h
    simp only [step, posingModeCallback]
    repeat' split
    all_goals rfl
  | cbCruiseControl input =>
    refine accSentinel_of_params_eq ?_ h
    simp only [step, cruiseControlCallback]
    repeat' split
    all_goals rfl
  | cbAutoNavigation input =>
    refine accSentinel_of_params_eq ?_ h
    simp only [step, autoNavigationCallback]
    repeat' split
    all_goals rfl
  | cbParameterSelection input =>
    refine accSentinel_of_params_eq ?_ h
    simp only [step, parameterSelectionCallback]
    repeat' split
    all_goals rfl
  | cbParameterAdjust input =>
    exact ⟨(parameterAdjustCallback_acc input s).1.trans h.1,
           (parameterAdjustCallback_acc input s).2.trans h.2⟩
  | cbPrimaryLegSelection input =>
    refine accSentinel_of_params_eq ?_ h
    simp only [step, primaryLegSelectionCallback]
    repeat' split
    all_goals rfl
  | cbSecondaryLegSelection input =>
    refine accSentinel_of_params_eq ?_ h
    simp only [step, secondaryLegSelectionCallback]
    repeat' split
    all_goals rfl
  | cbPrimaryLegState input =>
    refine accSentinel_of_params_eq ?_ h
    simp only [step, primaryLegStateCallback]
    repeat' split
    all_goals rfl
  | cbSecondaryLegState input =>
    refine accSentinel_of_params_eq ?_ h
    simp only [step, secondaryLegStateCallback]
    repeat' split
    all_goals rfl
  | cbPoseReset input =>
    refine accSentinel_of_params_eq ?_ h
    simp only [step, poseResetCallback]
    repeat' split
    all_goals rfl
  | cbBodyVelocity lin ang => exact h
  | cbPrimaryTipVelocity v => exact h
  | cbSecondaryTipVelocity v => exact h
  | cbSensor f => exact h
  | publishJointState => exact h

/-- C10: a gait change with the walker stopped sets both acceleration
limits to the sentinel -1, and every subsequent controller operation
(ticks and all input callbacks) preserves the sentinel, so acceleration
clamping stays disabled. -/
theorem C10_acc_sentinel_invariant (env : Env) (op : Op) (s t : SC)
    (hstop : s.walk_state = WalkState.STOPPED) (ht : accSentinel t) :
    accSentinel (changeGait env s) ∧ accSentinel (step op t) :=
  ⟨changeGait_stopped_acc env s hstop, step_acc op t ht⟩

/-- C10 witness fixture: the quiescent state with the sentinel in place. -/
def tAcc : SC :=
  { baseSC with
    params := { params0 with max_linear_acceleration := -1, max_angular_acceleration := -1 } }

/-- Witness for C10 at a concrete gait change and a concrete tick. -/
theorem C10_acc_sentinel_invariant_witness :
    accSentinel (changeGait env0 baseSC) ∧ accSentinel (step (Op.tick env0) tAcc) :=
  C10_acc_sentinel_invariant env0 (Op.tick env0) baseSC tAcc rfl ⟨by decide, by decide⟩

/-- Witness for C2 amended at the concrete moving-walker fixture. -/
theorem C2_amended_order_witness :
    occursBefore Event.impedanceUpdate Event.walkUpdate (loop env0 sC2).2 ∧
    occursBefore Event.walkUpdate Event.stanceUpdate (loop env0 sC2).2 :=
  ⟨(C2_amended_order env0 sC2 rfl rfl rfl rfl rfl rfl rfl).2.1,
   (C2_amended_order env0 sC2 rfl rfl rfl rfl rfl rfl rfl).2.2.1⟩

/-- Witness for C3 amended: at the moving-walker fixture the pipeline runs. -/
theorem C3_amended_skip_witness :
    Event.walkUpdate ∈ (runningState env0 sC3).2 :=
  (C3_amended_skip env0 sC3).mpr (by decide)

/-- The computable addition agrees with the library's rational addition. -/
theorem qadd_eq_add (a b : ℚ) : qadd a b = a + b := by
  unfold qadd
  rw [Rat.mkRat_eq_divInt]
  conv_rhs => rw [← Rat.num_divInt_den a, ← Rat.num_divInt_den b]
  rw [Rat.divInt_add_divInt _ _ (by exact_mod_cast a.den_nz) (by exact_mod_cast b.den_nz)]
  congr 1

/-- The computable subtraction agrees with the library's subtraction. -/
theorem qsub_eq_sub (a b : ℚ) : qsub a b = a - b := by
  unfold qsub
  rw [qadd_eq_add, sub_eq_add_neg]

/-- The computable multiplication agrees with the library's
multiplication. -/
theorem qmul_eq_mul (a b : ℚ) : qmul a b = a * b := by
  unfold qmul
  rw [Rat.mkRat_eq_divInt]
  conv_rhs => rw [← Rat.num_divInt_den a, ← Rat.num_divInt_den b]
  rw [Rat.divInt_mul_divInt']
  congr 1

/-- The computable division agrees with the library's division. -/
theorem qdiv_eq_div (a b : ℚ) : qdiv a b = a / b := by
  unfold qdiv
  rw [Rat.mkRat_eq_divInt, Rat.div_def']
  rcases lt_or_le b.num 0 with hneg | hpos
  · rw [if_pos hneg]
    have habs : ((b.num.natAbs : ℤ)) = -b.num := Int.ofNat_natAbs_of_nonpos (le_of_lt hneg)
    push_cast [habs]
    rw [show a.num * (b.den : ℤ) * (-1) = -(a.num * (b.den : ℤ)) by ring,
        show (a.den : ℤ) * -b.num = -((a.den : ℤ) * b.num) by ring,
        Rat.neg_divInt_neg]
  · rw [if_neg (not_lt.mpr hpos)]
    have habs : ((b.num.natAbs : ℤ)) = b.num := Int.natAbs_of_nonneg hpos
    push_cast [habs]
    ring_nf

/-- The computable minimum agrees with the order minimum. -/
theorem qmin_eq_min (a b : ℚ) : qmin a b = min a b := (min_def a b).symm

/-- The computable maximum agrees with the order maximum. -/
theorem qmax_eq_max (a b : ℚ) : qmax a b = max a b := (max_def a b).symm

/-- The embedded absolute value agrees with the order absolute value. -/
theorem ratAbs_eq_abs (q : ℚ) : ratAbs q = |q| := by
  unfold ratAbs
  split
  · exact (abs_of_neg (by assumption)).symm
  · exact (abs_of_nonneg (le_of_not_lt (by assumption))).symm
